import Mathlib

/-!
Shallow embedding of the `language-salary` job-statistics program
(`src/main.py`, with the earlier draft `src/hh.py` where it differs).

Numbers are modelled as rationals: all salary arithmetic in the source is
Python float arithmetic on small decimal values, idealised here as exact
arithmetic.  Optional values (`None` in Python) are modelled with `Option`,
and a Python expression that can raise is modelled with `Except String`.
-/

namespace LanguageSalary

/-- Python truthiness of an optional number: `None` and `0` are falsy,
every other number is truthy.  This is the test used by
`if salary_from and salary_to`, `elif salary_from`, `elif salary_to`
(`main.py` lines 74-79) and by `if salary:` (`main.py` line 175). -/
def truthy : Option ℚ → Bool
  | none => false
  | some x => if x = 0 then false else true

/-- Embedding of `predict_salary` (`main.py` lines 62-82): the salary
imputation heuristic, with explicit coefficient arguments mirroring the
Python keyword arguments `salary_from_coef` and `salary_to_coef`. -/
def predict_salary (salary_from salary_to : Option ℚ)
    (salary_from_coef salary_to_coef : ℚ) : Option ℚ :=
  if truthy salary_from && truthy salary_to then
    some ((salary_from.getD 0 + salary_to.getD 0) / 2)
  else if truthy salary_from then
    some (salary_from_coef * salary_from.getD 0)
  else if truthy salary_to then
    some (salary_to_coef * salary_to.getD 0)
  else
    none

/-- Embedding of `predict_salary` applied with its default coefficients
`salary_from_coef = 1.2` and `salary_to_coef = 0.8` (`main.py` lines 63-64),
the decimal literals taken as the exact rationals 6/5 and 4/5. -/
def predict_salary_default (salary_from salary_to : Option ℚ) : Option ℚ :=
  predict_salary salary_from salary_to (6 / 5) (4 / 5)

/-- Value of the HeadHunter `salary` sub-dictionary of a vacancy record:
fields `currency`, `from`, `to` (the latter two may be JSON `null`). -/
structure HHSalary where
  currency : String
  lower : Option ℚ
  upper : Option ℚ
deriving DecidableEq

/-- HeadHunter vacancy record, restricted to the only field the program
reads: `salary`.  `none` models a record whose `salary` field is JSON
`null` (or missing altogether). -/
structure HHVacancy where
  salary : Option HHSalary
deriving DecidableEq

/-- SuperJob vacancy record, restricted to the fields the program reads:
`currency`, `payment_from`, `payment_to`. -/
structure SJVacancy where
  currency : String
  payment_from : Option ℚ
  payment_to : Option ℚ
deriving DecidableEq

/-- Embedding of `predict_rub_salary_hh` (`main.py` lines 85-96).  The
Python body subscripts `vacancy['salary']` without a guard, so a record
whose salary is `null` raises `TypeError` (a missing key raises `KeyError`
the same way); both are modelled by the `Except.error` branch. -/
def predict_rub_salary_hh (vacancy : HHVacancy) : Except String (Option ℚ) :=
  match vacancy.salary with
  | none => Except.error "TypeError: NoneType object is not subscriptable"
  | some salary =>
      if salary.currency = "RUR" then
        Except.ok (predict_salary_default salary.lower salary.upper)
      else
        Except.ok none

/-- Embedding of `predict_rub_salary_superjob` (`main.py` lines 99-109).
The SuperJob record carries its payment fields at top level, so no
subscripting of a possibly-`null` sub-object occurs and no exception is
raised. -/
def predict_rub_salary_superjob (vacancy : SJVacancy) : Option ℚ :=
  if vacancy.currency = "rub" then
    predict_salary_default vacancy.payment_from vacancy.payment_to
  else
    none

/-- Wrapping of the SuperJob estimator into the exception-aware shape the
collector consumes (Python passes the function itself; it never raises on
a well-formed record). -/
def sj_estimator (vacancy : SJVacancy) : Except String (Option ℚ) :=
  Except.ok (predict_rub_salary_superjob vacancy)

/-- Pagination constant `HH_MAX_VACANCIES_QUANTITY = 2000` (`main.py` line 22). -/
def HH_MAX_VACANCIES_QUANTITY : ℕ := 2000

/-- Pagination constant `HH_VACANCIES_PER_PAGE = 100` (`main.py` line 23). -/
def HH_VACANCIES_PER_PAGE : ℕ := 100

/-- Pagination constant `SJ_MAX_VACANCIES_QUANTITY = 500` (`main.py` line 27). -/
def SJ_MAX_VACANCIES_QUANTITY : ℕ := 500

/-- Pagination constant `SJ_VACANCIES_PER_PAGE = 100` (`main.py` line 28). -/
def SJ_VACANCIES_PER_PAGE : ℕ := 100

/-- Embedding of the loop bound `int(max_vacancies_quantity / vacancies_per_page)`
(`main.py` line 157): Python true division followed by `int` truncation,
which on these positive integers with exact quotient coincides with
natural-number division. -/
def pages_count (max_vacancies_quantity vacancies_per_page : ℕ) : ℕ :=
  max_vacancies_quantity / vacancies_per_page

/-- Number of pages requested per category by `get_vacancies_statistics_hh`
in `main.py` (lines 199-207), which passes `HH_MAX_VACANCIES_QUANTITY` and
`HH_VACANCIES_PER_PAGE`. -/
def main_hh_pages : ℕ := pages_count HH_MAX_VACANCIES_QUANTITY HH_VACANCIES_PER_PAGE

/-- Number of pages requested per category by `get_vacancies_statistics_sj`
in `main.py` (lines 224-233), which passes `SJ_MAX_VACANCIES_QUANTITY` and
`SJ_VACANCIES_PER_PAGE`. -/
def main_sj_pages : ℕ := pages_count SJ_MAX_VACANCIES_QUANTITY SJ_VACANCIES_PER_PAGE

/-- Number of pages requested per category by `get_vacancies_statistics_hh`
in the draft module `hh.py` (line 83), whose loop bound is written
`range(int(SJ_MAX_VACANCIES_QUANTITY / SJ_VACANCIES_PER_PAGE))` — the
SuperJob constants, although the function collects from HeadHunter. -/
def hh_module_hh_pages : ℕ := pages_count SJ_MAX_VACANCIES_QUANTITY SJ_VACANCIES_PER_PAGE

/-- Truncation of a rational toward zero, the behaviour of Python `int()`
on a float (`main.py` line 182). -/
def truncToInt (q : ℚ) : ℤ :=
  if q < 0 then -Int.floor (-q) else Int.floor q

/-- Embedding of `int(np.mean(xs))` (`main.py` line 182): on a nonempty
list, the truncated arithmetic mean; on an empty list `np.mean` returns
`NaN` and `int(NaN)` raises `ValueError`, modelled by the error branch. -/
def int_np_mean : List ℚ → Except String ℤ
  | [] => Except.error "ValueError: cannot convert float NaN to integer"
  | x :: xs => Except.ok (truncToInt ((x :: xs).sum / ((x :: xs).length : ℚ)))

/-- Embedding of `int(np.mean([x for y in total_salaries for x in y]))`
(`main.py` line 182): the flattened mean over all pages, truncated. -/
def average_salary_of (total_salaries : List (List ℚ)) : Except String ℤ :=
  int_np_mean total_salaries.flatten

/-- Outcome of one `requests.get` call as the collector observes it: the
final HTTP status code and the decoded item list of the response body
(`response.json()[items_field_name]`, `main.py` line 170).  `V` is the
provider-specific vacancy record type. -/
structure HttpResponse (V : Type) where
  status : ℕ
  items : List V
deriving DecidableEq

/-- Query parameters of one page request, as assembled in `main.py`
lines 159-165.  The `text` field carries the category (search keyword)
and `page` the zero-based page number, so any error message that embeds
the request URL carries both. -/
structure RequestParams where
  text : String
  location : ℕ
  period : ℕ
  page : ℕ
  per_page : ℕ
deriving DecidableEq

/-- Construction of the params dictionary for one page request
(`main.py` lines 159-165): the search text is the literal
`f'Программист {language}'`. -/
def build_params (language : String) (city_id period per_page page_number : ℕ) :
    RequestParams :=
  ⟨"Программист " ++ language, city_id, period, page_number, per_page⟩

/-- Exceptions that escape the per-category collection loop:
`http` models the `requests.HTTPError` raised by `response.raise_for_status()`
(`main.py` line 169), whose message embeds the request URL and thus the
query parameters; `estimator` models an exception raised by the salary
prediction function on some page (`main.py` line 174); `value_error`
models the `ValueError` raised by `int(np.mean([]))` (`main.py` line 182). -/
inductive CollectError where
  | http (params : RequestParams) (status : ℕ)
  | estimator (page_number : ℕ) (msg : String)
  | value_error (msg : String)
deriving DecidableEq

/-- Accumulated state of one category's collection loop
(`main.py` lines 154-178): the per-page salary lists in page order, and
the running `vacancies_found` / `vacancies_processed` counters. -/
structure CollectResult where
  total_salaries : List (List ℚ)
  vacancies_found : ℕ
  vacancies_processed : ℕ
deriving DecidableEq

/-- Embedding of the inner per-page loop body (`main.py` lines 172-177):
each vacancy is passed to the salary prediction function (which may
raise), and the result is appended only when truthy (`if salary:`). -/
def page_salaries {V : Type} (pred : V → Except String (Option ℚ)) :
    List V → Except String (List ℚ)
  | [] => Except.ok []
  | v :: rest =>
      match pred v with
      | Except.error msg => Except.error msg
      | Except.ok s =>
          match page_salaries pred rest with
          | Except.error msg => Except.error msg
          | Except.ok others =>
              if truthy s then Except.ok (s.getD 0 :: others) else Except.ok others

/-- Salaries kept from a page by a never-raising estimator `f`: the truthy
estimates in order.  Helper for stating theorems about runs whose
estimator is total. -/
def kept_salaries {V : Type} (f : V → Option ℚ) : List V → List ℚ
  | [] => []
  | v :: rest =>
      if truthy (f v) then (f v).getD 0 :: kept_salaries f rest
      else kept_salaries f rest

/-- Embedding of the page loop of `get_vacancies_statistics` for one
category (`main.py` lines 157-179), processing the given list of page
numbers in order.  `http` is the HTTP capability (page number to final
response); `response.raise_for_status()` raises `requests.HTTPError`
exactly when the final status code is in [400, 600). -/
def collect_go {V : Type} (http : ℕ → HttpResponse V)
    (pred : V → Except String (Option ℚ))
    (language : String) (city_id period per_page : ℕ) :
    List ℕ → Except CollectError CollectResult
  | [] => Except.ok ⟨[], 0, 0⟩
  | p :: rest =>
      let params := build_params language city_id period per_page p
      let resp := http p
      if 400 ≤ resp.status ∧ resp.status < 600 then
        Except.error (CollectError.http params resp.status)
      else
        match page_salaries pred resp.items with
        | Except.error msg => Except.error (CollectError.estimator p msg)
        | Except.ok salaries =>
            match collect_go http pred language city_id period per_page rest with
            | Except.error e => Except.error e
            | Except.ok r =>
                Except.ok ⟨salaries :: r.total_salaries,
                           resp.items.length + r.vacancies_found,
                           salaries.length + r.vacancies_processed⟩

/-- Collection of one category: pages `0` to `max_pages - 1` in order,
mirroring `for page_number in range(...)` (`main.py` line 157). -/
def collect_category {V : Type} (http : ℕ → HttpResponse V)
    (pred : V → Except String (Option ℚ))
    (language : String) (city_id period per_page max_pages : ℕ) :
    Except CollectError CollectResult :=
  collect_go http pred language city_id period per_page (List.range max_pages)

/-- Per-category statistics record written into `vacancies_by_language`
(`main.py` lines 180-182). -/
structure CategoryStatistics where
  vacancies_found : ℕ
  vacancies_processed : ℕ
  average_salary : ℤ
deriving DecidableEq

/-- Per-category body of `get_vacancies_statistics` (`main.py`
lines 154-182): collect all pages, then aggregate the counters and the
truncated flattened mean.  Any exception raised inside — HTTP error,
estimator error, or the `ValueError` from `int(np.mean([]))` — propagates. -/
def language_statistics {V : Type} (http : ℕ → HttpResponse V)
    (pred : V → Except String (Option ℚ))
    (language : String) (city_id period per_page max_pages : ℕ) :
    Except CollectError CategoryStatistics :=
  match collect_category http pred language city_id period per_page max_pages with
  | Except.error e => Except.error e
  | Except.ok r =>
      match average_salary_of r.total_salaries with
      | Except.error msg => Except.error (CollectError.value_error msg)
      | Except.ok avg =>
          Except.ok ⟨r.vacancies_found, r.vacancies_processed, avg⟩

/-- Category list `POPULAR_LANGUAGES` (`main.py` lines 10-19). -/
def POPULAR_LANGUAGES : List String :=
  ["JavaScript", "Java", "Python", "C#", "TypeScript", "PHP", "Kotlin", "C++"]

/-- Embedding of the outer loop of `get_vacancies_statistics` (`main.py`
lines 152-184) over an explicit category list: one entry per category, in
order; the first exception in any category aborts the whole run. -/
def statistics_by_language {V : Type} (http : String → ℕ → HttpResponse V)
    (pred : V → Except String (Option ℚ))
    (city_id period per_page max_pages : ℕ) :
    List String → Except CollectError (List (String × CategoryStatistics))
  | [] => Except.ok []
  | language :: rest =>
      match language_statistics (http language) pred language city_id period
          per_page max_pages with
      | Except.error e => Except.error e
      | Except.ok stats =>
          match statistics_by_language http pred city_id period per_page
              max_pages rest with
          | Except.error e => Except.error e
          | Except.ok report => Except.ok ((language, stats) :: report)

/-- Embedding of `get_vacancies_statistics` (`main.py` lines 112-184)
specialised to its fixed category list `POPULAR_LANGUAGES`. -/
def get_vacancies_statistics {V : Type} (http : String → ℕ → HttpResponse V)
    (pred : V → Except String (Option ℚ))
    (city_id period per_page max_pages : ℕ) :
    Except CollectError (List (String × CategoryStatistics)) :=
  statistics_by_language http pred city_id period per_page max_pages
    POPULAR_LANGUAGES

/-- Demo HTTP capability: every page answers 200 with an empty item list
(a category with zero extractable estimates). -/
def empty_pages_http : ℕ → HttpResponse SJVacancy := fun _ => ⟨200, []⟩

/-- Demo HTTP capability: page 2 answers 404, every other page answers 200
with an empty item list. -/
def failing_http : ℕ → HttpResponse SJVacancy :=
  fun n => if n = 2 then ⟨404, []⟩ else ⟨200, []⟩

/-- Demo HTTP capability: page 1 answers 200 with an empty item list, every
other page answers 200 with one ruble vacancy. -/
def empty_middle_http : ℕ → HttpResponse SJVacancy :=
  fun n => if n = 1 then ⟨200, []⟩ else ⟨200, [⟨"rub", some 100, some 200⟩]⟩

/-- Demo HTTP capability for a whole run: every category and page answers
200 with one ruble vacancy. -/
def demo_all_http : String → ℕ → HttpResponse SJVacancy :=
  fun _ _ => ⟨200, [⟨"rub", some 100, some 200⟩]⟩

/-- Helper: a never-raising estimator makes `page_salaries` succeed with
exactly the truthy estimates. -/
lemma page_salaries_okwrap {V : Type} (f : V → Option ℚ) :
    ∀ items : List V,
      page_salaries (fun v => Except.ok (f v)) items
        = Except.ok (kept_salaries f items) := by
  intro items
  induction items with
  | nil => simp [page_salaries, kept_salaries]
  | cons v rest ih =>
      by_cases ht : truthy (f v)
      · simp [page_salaries, kept_salaries, ih, ht]
      · simp [page_salaries, kept_salaries, ih, ht]

/-- Helper: a page's kept-salary list is never longer than its item list. -/
lemma page_salaries_ok_length {V : Type} (pred : V → Except String (Option ℚ)) :
    ∀ (items : List V) (s : List ℚ),
      page_salaries pred items = Except.ok s → s.length ≤ items.length := by
  intro items
  induction items with
  | nil =>
      intro s h
      simp [page_salaries] at h
      simp [← h]
  | cons v rest ih =>
      intro s h
      cases hp : pred v with
      | error msg => simp [page_salaries, hp] at h
      | ok o =>
          cases hr : page_salaries pred rest with
          | error msg => simp [page_salaries, hp, hr] at h
          | ok others =>
              have hlen : others.length ≤ rest.length := ih others hr
              by_cases ht : truthy o
              · simp [page_salaries, hp, hr, ht] at h
                simp [← h, List.length_cons]
                omega
              · simp [page_salaries, hp, hr, ht] at h
                simp [← h]
                omega

/-- Helper: whenever the collection loop completes, its `processed`
counter is bounded by its `found` counter. -/
lemma collect_go_processed_le_found {V : Type} (http : ℕ → HttpResponse V)
    (pred : V → Except String (Option ℚ))
    (language : String) (city_id period per_page : ℕ) :
    ∀ (ps : List ℕ) (r : CollectResult),
      collect_go http pred language city_id period per_page ps = Except.ok r →
        r.vacancies_processed ≤ r.vacancies_found := by
  intro ps
  induction ps with
  | nil =>
      intro r h
      simp [collect_go] at h
      simp [← h]
  | cons p rest ih =>
      intro r h
      by_cases hs : 400 ≤ (http p).status ∧ (http p).status < 600
      · simp [collect_go, hs] at h
      · cases hpage : page_salaries pred (http p).items with
        | error msg => simp [collect_go, hs, hpage] at h
        | ok salaries =>
            cases hrest : collect_go http pred language city_id period per_page rest with
            | error e => simp [collect_go, hs, hpage, hrest] at h
            | ok r0 =>
                have h1 : salaries.length ≤ (http p).items.length :=
                  page_salaries_ok_length pred _ _ hpage
                have h2 : r0.vacancies_processed ≤ r0.vacancies_found := ih r0 hrest
                simp [collect_go, hs, hpage, hrest] at h
                simp [← h]
                omega

/-- Helper: whenever the collection loop completes, its `processed`
counter equals the total number of kept salaries across all pages. -/
lemma collect_go_processed_eq_sum {V : Type} (http : ℕ → HttpResponse V)
    (pred : V → Except String (Option ℚ))
    (language : String) (city_id period per_page : ℕ) :
    ∀ (ps : List ℕ) (r : CollectResult),
      collect_go http pred language city_id period per_page ps = Except.ok r →
        r.vacancies_processed = (r.total_salaries.map List.length).sum := by
  intro ps
  induction ps with
  | nil =>
      intro r h
      simp [collect_go] at h
      simp [← h]
  | cons p rest ih =>
      intro r h
      by_cases hs : 400 ≤ (http p).status ∧ (http p).status < 600
      · simp [collect_go, hs] at h
      · cases hpage : page_salaries pred (http p).items with
        | error msg => simp [collect_go, hs, hpage] at h
        | ok salaries =>
            cases hrest : collect_go http pred language city_id period per_page rest with
            | error e => simp [collect_go, hs, hpage, hrest] at h
            | ok r0 =>
                have h2 := ih r0 hrest
                simp [collect_go, hs, hpage, hrest] at h
                simp [← h, h2]

/-- Helper: when no requested page has a status in the raising range
[400, 600) and the estimator never raises, the loop visits every page and
returns the per-page kept salaries together with the summed counters. -/
lemma collect_go_all_ok {V : Type} (http : ℕ → HttpResponse V) (f : V → Option ℚ)
    (language : String) (city_id period per_page : ℕ) :
    ∀ ps : List ℕ,
      (∀ p ∈ ps, ¬ (400 ≤ (http p).status ∧ (http p).status < 600)) →
      collect_go http (fun v => Except.ok (f v)) language city_id period per_page ps
        = Except.ok ⟨ps.map (fun p => kept_salaries f (http p).items),
                     (ps.map (fun p => (http p).items.length)).sum,
                     (ps.map (fun p => (kept_salaries f (http p).items).length)).sum⟩ := by
  intro ps
  induction ps with
  | nil => intro _; simp [collect_go]
  | cons p rest ih =>
      intro hok
      have hs : ¬ (400 ≤ (http p).status ∧ (http p).status < 600) :=
        hok p (List.mem_cons_self p rest)
      have hrest := ih (fun q hq => hok q (List.mem_cons_of_mem p hq))
      simp [collect_go, hs, page_salaries_okwrap, hrest]

/-- Helper: the first page whose status lies in the raising range [400, 600)
aborts the loop with an `HTTPError` carrying that page's request params and
status, whatever pages were scheduled after it. -/
lemma collect_go_first_fail {V : Type} (http : ℕ → HttpResponse V)
    (f : V → Option ℚ) (language : String) (city_id period per_page : ℕ) :
    ∀ (qs : List ℕ) (p : ℕ) (rest : List ℕ),
      (∀ q ∈ qs, ¬ (400 ≤ (http q).status ∧ (http q).status < 600)) →
      400 ≤ (http p).status ∧ (http p).status < 600 →
      collect_go http (fun v => Except.ok (f v)) language city_id period per_page
          (qs ++ p :: rest)
        = Except.error (CollectError.http
            (build_params language city_id period per_page p) ((http p).status)) := by
  intro qs
  induction qs with
  | nil =>
      intro p rest _ hraise
      simp [collect_go, hraise]
  | cons q qs ih =>
      intro p rest hok hraise
      have hs : ¬ (400 ≤ (http q).status ∧ (http q).status < 600) :=
        hok q (List.mem_cons_self q qs)
      have hrest := ih p rest (fun x hx => hok x (List.mem_cons_of_mem q hx)) hraise
      simp [collect_go, hs, page_salaries_okwrap, hrest]

/-- Helper: truncation toward zero differs from its argument by less
than 1. -/
lemma abs_truncToInt_sub_lt_one (q : ℚ) : |(truncToInt q : ℚ) - q| < 1 := by
  simp only [truncToInt]
  rcases lt_or_le q 0 with hq | hq
  · rw [if_pos hq]
    have h1 : ((⌊-q⌋ : ℚ)) ≤ -q := Int.floor_le (-q)
    have h2 : -q < ⌊-q⌋ + 1 := Int.lt_floor_add_one (-q)
    rw [abs_sub_lt_iff]
    refine ⟨by push_cast; linarith, by push_cast; linarith⟩
  · rw [if_neg (not_lt.mpr hq)]
    have h1 : ((⌊q⌋ : ℚ)) ≤ q := Int.floor_le q
    have h2 : q < ⌊q⌋ + 1 := Int.lt_floor_add_one q
    rw [abs_sub_lt_iff]
    refine ⟨by linarith, by linarith⟩

/-- Helper: on a run with at least one kept estimate, the reported average
is the truncated flattened mean. -/
lemma average_salary_of_eq (tss : List (List ℚ)) (h : tss.flatten ≠ []) :
    average_salary_of tss
      = Except.ok (truncToInt (tss.flatten.sum / (tss.flatten.length : ℚ))) := by
  cases hf : tss.flatten with
  | nil => exact absurd hf h
  | cons x xs => simp [average_salary_of, hf, int_np_mean]

/-- Claim C2: in `main.py` the HeadHunter collector requests
2000 / 100 = 20 pages per category and the SuperJob collector
500 / 100 = 5 pages (page numbers 0 to maxPages - 1 via `List.range`);
but the draft HeadHunter collector in `hh.py` (line 83) bounds its loop by
the SuperJob constants and therefore requests only 5 pages, not the
HeadHunter ceiling of 20 — the code slip behind the code_bug verdict. -/
theorem page_request_counts :
    main_hh_pages = 20 ∧ main_sj_pages = 5 ∧
    hh_module_hh_pages = 5 ∧ hh_module_hh_pages ≠ 20 := by
  decide

/-- Claim C3, counterexample: a compensation range whose bounds are both
present but whose lower bound is 0 is routed through Python truthiness to
the upper-only branch: `predict_salary(0, 200)` returns 160, not the
two-sided mean 100 claimed for every range with both bounds present. -/
theorem estimate_zero_bound_counterexample :
    predict_salary_default (some 0) (some 200) = some 160 ∧
    predict_salary_default (some 0) (some 200) ≠ some ((0 + 200) / 2) := by
  constructor
  · norm_num [predict_salary_default, predict_salary, truthy]
  · norm_num [predict_salary_default, predict_salary, truthy]

/-- Claim C3 as amended: a bound is effective only when it is present and
nonzero (Python truthiness — a zero bound counts exactly like a missing
one).  For any values `l ≠ 0` and `u ≠ 0`, the nine combinations of each
slot being a truthy number, the number 0, or absent are: both truthy gives
the two-sided mean; lower truthy with upper absent-or-zero gives
`1.2 * lower`; upper truthy with lower absent-or-zero gives `0.8 * upper`;
neither truthy (each slot absent or zero) gives absent; in particular
`estimate(lower = 100, upper = 200) = 150`. -/
theorem predict_salary_cases (l u : ℚ) (hl : l ≠ 0) (hu : u ≠ 0) :
    predict_salary_default (some l) (some u) = some ((l + u) / 2) ∧
    predict_salary_default (some l) none = some (6 / 5 * l) ∧
    predict_salary_default (some l) (some 0) = some (6 / 5 * l) ∧
    predict_salary_default none (some u) = some (4 / 5 * u) ∧
    predict_salary_default (some 0) (some u) = some (4 / 5 * u) ∧
    predict_salary_default none none = none ∧
    predict_salary_default (some 0) none = none ∧
    predict_salary_default none (some 0) = none ∧
    predict_salary_default (some 0) (some 0) = none ∧
    predict_salary_default (some 100) (some 200) = some 150 := by
  refine ⟨?_, ?_, ?_, ?_, ?_, ?_, ?_, ?_, ?_, ?_⟩ <;>
    norm_num [predict_salary_default, predict_salary, truthy, hl, hu]

/-- Witness for the amended claim C3 at lower = 100, upper = 200,
covering all nine truthiness combinations of the two slots. -/
theorem predict_salary_cases_witness :
    predict_salary_default (some 100) (some 200) = some ((100 + 200) / 2) ∧
    predict_salary_default (some 100) none = some (6 / 5 * 100) ∧
    predict_salary_default (some 100) (some 0) = some (6 / 5 * 100) ∧
    predict_salary_default none (some 200) = some (4 / 5 * 200) ∧
    predict_salary_default (some 0) (some 200) = some (4 / 5 * 200) ∧
    predict_salary_default none none = none ∧
    predict_salary_default (some 0) none = none ∧
    predict_salary_default none (some 0) = none ∧
    predict_salary_default (some 0) (some 0) = none ∧
    predict_salary_default (some 100) (some 200) = some 150 :=
  predict_salary_cases 100 200 (by norm_num) (by norm_num)

/-- Claim C8: both per-record estimators return an absent estimate, and
raise nothing, on every record whose declared currency differs from the
target one — `'RUR'` for HeadHunter, `'rub'` for SuperJob — whatever the
bounds are. -/
theorem currency_mismatch_absent :
    (∀ (v : HHVacancy) (s : HHSalary), v.salary = some s → s.currency ≠ "RUR" →
        predict_rub_salary_hh v = Except.ok none) ∧
    (∀ w : SJVacancy, w.currency ≠ "rub" → predict_rub_salary_superjob w = none) := by
  constructor
  · intro v s hv hc
    simp [predict_rub_salary_hh, hv, hc]
  · intro w hc
    simp [predict_rub_salary_superjob, hc]

/-- Witness for claim C8 on concrete USD records with both bounds present. -/
theorem currency_mismatch_absent_witness :
    predict_rub_salary_hh ⟨some ⟨"USD", some 100, some 200⟩⟩ = Except.ok none ∧
    predict_rub_salary_superjob ⟨"usd", some 100, some 200⟩ = none :=
  ⟨currency_mismatch_absent.1 ⟨some ⟨"USD", some 100, some 200⟩⟩
      ⟨"USD", some 100, some 200⟩ rfl (by decide),
   currency_mismatch_absent.2 ⟨"usd", some 100, some 200⟩ (by decide)⟩

/-- Claim C9: whenever at least one estimate was collected, the reported
`average_salary` is the `int()`-truncation of the arithmetic mean of the
flattened estimates, an integer that differs from the exact mean by less
than 1. -/
theorem average_salary_truncation (tss : List (List ℚ)) (h : tss.flatten ≠ []) :
    average_salary_of tss
      = Except.ok (truncToInt (tss.flatten.sum / (tss.flatten.length : ℚ))) ∧
    |(truncToInt (tss.flatten.sum / (tss.flatten.length : ℚ)) : ℚ)
        - tss.flatten.sum / (tss.flatten.length : ℚ)| < 1 :=
  ⟨average_salary_of_eq tss h, abs_truncToInt_sub_lt_one _⟩

/-- Witness for claim C9 on the two-page run [[100, 200], [300]]. -/
theorem average_salary_truncation_witness :
    average_salary_of [[100, 200], [300]]
      = Except.ok (truncToInt ((([[100, 200], [300]] : List (List ℚ)).flatten.sum
          / (([[100, 200], [300]] : List (List ℚ)).flatten.length : ℚ))) ) ∧
    |(truncToInt ((([[100, 200], [300]] : List (List ℚ)).flatten.sum
          / (([[100, 200], [300]] : List (List ℚ)).flatten.length : ℚ))) : ℚ)
        - ([[100, 200], [300]] : List (List ℚ)).flatten.sum
          / (([[100, 200], [300]] : List (List ℚ)).flatten.length : ℚ)| < 1 :=
  average_salary_truncation [[100, 200], [300]] (by simp)

/-- Claim C10: the HeadHunter per-record estimator is not total — on a
record whose `salary` field is `null` (or missing), subscripting it raises
instead of returning an absent estimate, so such a record aborts the
collection of its whole category. -/
theorem hh_predictor_not_total :
    predict_rub_salary_hh ⟨none⟩
      = Except.error "TypeError: NoneType object is not subscriptable" := rfl

/-- Claim C4, counterexample: the reported average is not in general equal
to the exact arithmetic mean of the concatenated estimates — for pages
[[100], [201]] the exact flattened mean is 150.5 but the report holds the
`int()`-truncated value 150. -/
theorem average_not_exact_mean_counterexample :
    average_salary_of [[100], [201]] = Except.ok 150 ∧
    ((150 : ℚ) ≠ (100 + 201) / 2) := by
  constructor
  · have h := average_salary_of_eq [[100], [201]] (by simp)
    rw [h]
    norm_num [truncToInt, Int.floor_eq_iff]
  · norm_num

/-- Claim C4 as amended: the reported average is the `int()`-truncation of
the arithmetic mean of the concatenation of all individual estimates
across all pages (a flattened mean), not a mean of per-page means; for
pages [[100, 200], [300]] it is 200, while the mean of per-page means
would be 225. -/
theorem average_is_truncated_flat_mean (tss : List (List ℚ)) (h : tss.flatten ≠ []) :
    average_salary_of tss
      = Except.ok (truncToInt (tss.flatten.sum / (tss.flatten.length : ℚ))) ∧
    average_salary_of [[100, 200], [300]] = Except.ok 200 ∧
    truncToInt ((((100 : ℚ) + 200) / 2 + 300) / 2) = 225 ∧
    average_salary_of [[100, 200], [300]] ≠ Except.ok 225 := by
  have e1 : average_salary_of [[100, 200], [300]] = Except.ok 200 := by
    have h2 := average_salary_of_eq [[100, 200], [300]] (by simp)
    rw [h2]
    norm_num [truncToInt, Int.floor_eq_iff]
  refine ⟨average_salary_of_eq tss h, e1, ?_, ?_⟩
  · norm_num [truncToInt, Int.floor_eq_iff]
  · rw [e1]
    simp

/-- Witness for the amended claim C4 at the spec's example pages. -/
theorem average_is_truncated_flat_mean_witness :
    (average_salary_of [[100, 200], [300]]
      = Except.ok (truncToInt ((([[100, 200], [300]] : List (List ℚ)).flatten.sum
          / (([[100, 200], [300]] : List (List ℚ)).flatten.length : ℚ))))) ∧
    average_salary_of [[100, 200], [300]] = Except.ok 200 ∧
    truncToInt ((((100 : ℚ) + 200) / 2 + 300) / 2) = 225 ∧
    average_salary_of [[100, 200], [300]] ≠ Except.ok 225 :=
  average_is_truncated_flat_mean [[100, 200], [300]] (by simp)

/-- Claim C1, settled as a code bug: when a category's collection completes
with `processed = 0` no estimate was kept, so the flattened list is empty
and the aggregation computes `int(np.mean([]))` — `np.mean([])` is `NaN`
and `int(NaN)` raises `ValueError`.  The per-category computation therefore
fails instead of reporting an absent `average_salary`. -/
theorem aggregation_fails_when_processed_zero {V : Type} (http : ℕ → HttpResponse V)
    (pred : V → Except String (Option ℚ)) (language : String)
    (city_id period per_page max_pages : ℕ) (r : CollectResult)
    (hcollect : collect_category http pred language city_id period per_page max_pages
        = Except.ok r)
    (hzero : r.vacancies_processed = 0) :
    language_statistics http pred language city_id period per_page max_pages
      = Except.error (CollectError.value_error
          "ValueError: cannot convert float NaN to integer") := by
  have hc2 : collect_go http pred language city_id period per_page
      (List.range max_pages) = Except.ok r := hcollect
  have hsum := collect_go_processed_eq_sum http pred language city_id period per_page
    (List.range max_pages) r hc2
  have hflat : r.total_salaries.flatten = [] := by
    have hlen : r.total_salaries.flatten.length = 0 := by
      rw [List.length_flatten]
      omega
    exact List.length_eq_zero.mp hlen
  simp [language_statistics, hcollect, average_salary_of, hflat, int_np_mean]

/-- Witness for claim C1: five successful pages, all with empty item
lists, make the whole per-category computation raise `ValueError`. -/
theorem aggregation_fails_when_processed_zero_witness :
    language_statistics empty_pages_http sj_estimator "Python" 4 30 100 5
      = Except.error (CollectError.value_error
          "ValueError: cannot convert float NaN to integer") :=
  aggregation_fails_when_processed_zero empty_pages_http sj_estimator "Python" 4 30 100 5
    ⟨[[], [], [], [], []], 0, 0⟩ rfl rfl

/-- Helper: a per-category computation that completes reports
`processed ≤ found`. -/
lemma language_statistics_processed_le {V : Type} (http : ℕ → HttpResponse V)
    (pred : V → Except String (Option ℚ)) (language : String)
    (city_id period per_page max_pages : ℕ) (st : CategoryStatistics)
    (h : language_statistics http pred language city_id period per_page max_pages
        = Except.ok st) :
    st.vacancies_processed ≤ st.vacancies_found := by
  cases hc : collect_category http pred language city_id period per_page max_pages with
  | error e => simp [language_statistics, hc] at h
  | ok r =>
      cases ha : average_salary_of r.total_salaries with
      | error msg => simp [language_statistics, hc, ha] at h
      | ok avg =>
          have hc2 : collect_go http pred language city_id period per_page
              (List.range max_pages) = Except.ok r := hc
          have hle := collect_go_processed_le_found http pred language city_id period
            per_page (List.range max_pages) r hc2
          simp [language_statistics, hc, ha] at h
          simp [← h]
          exact hle

/-- Helper: every entry of a completed multi-category report satisfies
`processed ≤ found`. -/
lemma statistics_by_language_processed_le {V : Type} (http : String → ℕ → HttpResponse V)
    (pred : V → Except String (Option ℚ)) (city_id period per_page max_pages : ℕ) :
    ∀ (langs : List String) (report : List (String × CategoryStatistics))
      (language : String) (stats : CategoryStatistics),
      statistics_by_language http pred city_id period per_page max_pages langs
        = Except.ok report →
      (language, stats) ∈ report →
      stats.vacancies_processed ≤ stats.vacancies_found := by
  intro langs
  induction langs with
  | nil =>
      intro report language stats h hmem
      simp [statistics_by_language] at h
      subst h
      simp at hmem
  | cons l rest ih =>
      intro report language stats h hmem
      cases hl : language_statistics (http l) pred l city_id period per_page max_pages with
      | error e => simp [statistics_by_language, hl] at h
      | ok st =>
          cases hr : statistics_by_language http pred city_id period per_page max_pages rest with
          | error e => simp [statistics_by_language, hl, hr] at h
          | ok rep0 =>
              simp [statistics_by_language, hl, hr] at h
              subst h
              cases List.mem_cons.mp hmem with
              | inl heq =>
                  have hst : stats = st := congrArg Prod.snd heq
                  rw [hst]
                  exact language_statistics_processed_le (http l) pred l city_id period
                    per_page max_pages st hl
              | inr hmem0 => exact ih rep0 language stats hr hmem0

/-- Claim C5: in every report the engine returns, every category satisfies
`vacancies_processed ≤ vacancies_found` — each record counted in
`processed` was first counted in `found`. -/
theorem processed_le_found {V : Type} (http : String → ℕ → HttpResponse V)
    (pred : V → Except String (Option ℚ)) (city_id period per_page max_pages : ℕ)
    (report : List (String × CategoryStatistics)) (language : String)
    (stats : CategoryStatistics)
    (hrun : get_vacancies_statistics http pred city_id period per_page max_pages
        = Except.ok report)
    (hmem : (language, stats) ∈ report) :
    stats.vacancies_processed ≤ stats.vacancies_found :=
  statistics_by_language_processed_le http pred city_id period per_page max_pages
    POPULAR_LANGUAGES report language stats hrun hmem

/-- Witness for claim C5 on a full 8-category run with one ruble vacancy
per page. -/
theorem processed_le_found_witness :
    (⟨1, 1, 150⟩ : CategoryStatistics).vacancies_processed
      ≤ (⟨1, 1, 150⟩ : CategoryStatistics).vacancies_found := by
  have hone : ∀ s t : String,
      language_statistics (demo_all_http s) sj_estimator t 4 30 100 1
        = Except.ok ⟨1, 1, 150⟩ := by
    intro s t
    norm_num [language_statistics, collect_category, collect_go, page_salaries,
      sj_estimator, predict_rub_salary_superjob, predict_salary_default,
      predict_salary, truthy, demo_all_http, average_salary_of, int_np_mean,
      truncToInt, List.range_succ, Int.floor_eq_iff]
  have hrun : get_vacancies_statistics demo_all_http sj_estimator 4 30 100 1
      = Except.ok (POPULAR_LANGUAGES.map
          (fun l => (l, (⟨1, 1, 150⟩ : CategoryStatistics)))) := by
    simp [get_vacancies_statistics, statistics_by_language, POPULAR_LANGUAGES, hone]
  exact processed_le_found demo_all_http sj_estimator 4 30 100 1 _ "Python" ⟨1, 1, 150⟩
    hrun (by simp [POPULAR_LANGUAGES])

/-- Claim C6: for a category whose pages are served by the HTTP capability
(which, after redirect resolution, surfaces only 2xx or 4xx/5xx final
statuses), the first non-2xx response — say on page `p` — aborts the
category's collection with an `HTTPError` whose request params carry the
category keyword and the page number; the outcome is an error (no
partial-category result) and is independent of every response after
page `p` (those pages are never consulted). -/
theorem first_http_failure_aborts {V : Type} (http http2 : ℕ → HttpResponse V)
    (f : V → Option ℚ) (language : String) (city_id period per_page max_pages p : ℕ)
    (hp : p < max_pages)
    (hfirst : ∀ q, q < p → 200 ≤ (http q).status ∧ (http q).status < 300)
    (hfail : ¬ (200 ≤ (http p).status ∧ (http p).status < 300))
    (hcap : (200 ≤ (http p).status ∧ (http p).status < 300) ∨
            (400 ≤ (http p).status ∧ (http p).status < 600))
    (hagree : ∀ q, q ≤ p → http2 q = http q) :
    collect_category http2 (fun v => Except.ok (f v)) language city_id period per_page
        max_pages
      = Except.error (CollectError.http
          (build_params language city_id period per_page p) ((http p).status)) ∧
    (build_params language city_id period per_page p).page = p ∧
    (build_params language city_id period per_page p).text
      = "Программист " ++ language := by
  have hraise : 400 ≤ (http p).status ∧ (http p).status < 600 := hcap.resolve_left hfail
  refine ⟨?_, rfl, rfl⟩
  rw [collect_category]
  obtain ⟨k, hk⟩ : ∃ k, max_pages = p + (k + 1) := ⟨max_pages - p - 1, by omega⟩
  rw [hk, List.range_add, List.range_succ_eq_map, List.map_cons]
  simp only [Nat.add_zero]
  have hok : ∀ q ∈ List.range p, ¬ (400 ≤ (http2 q).status ∧ (http2 q).status < 600) := by
    intro q hq
    have hqp : q < p := List.mem_range.mp hq
    rw [hagree q (le_of_lt hqp)]
    have := hfirst q hqp
    omega
  have hr2 : 400 ≤ (http2 p).status ∧ (http2 p).status < 600 := by
    rw [hagree p le_rfl]
    exact hraise
  rw [← hagree p le_rfl]
  exact collect_go_first_fail http2 f language city_id period per_page
    (List.range p) p _ hok hr2

/-- Witness for claim C6: page 2 of 5 answers 404; collection aborts there
with the error carrying page number 2 and the category keyword. -/
theorem first_http_failure_aborts_witness :
    collect_category failing_http (fun v => Except.ok (predict_rub_salary_superjob v))
        "Python" 4 30 100 5
      = Except.error (CollectError.http (build_params "Python" 4 30 100 2) 404) ∧
    (build_params "Python" 4 30 100 2).page = 2 ∧
    (build_params "Python" 4 30 100 2).text = "Программист " ++ "Python" := by
  have h := first_http_failure_aborts failing_http failing_http
    predict_rub_salary_superjob "Python" 4 30 100 5 2 (by norm_num)
    (by
      intro q hq
      have hne : q ≠ 2 := by omega
      norm_num [failing_http, hne])
    (by norm_num [failing_http])
    (by norm_num [failing_http])
    (fun q _ => rfl)
  simpa [failing_http] using h

/-- Claim C7: when every page of a category answers with a non-raising
status and the estimator is total, the loop visits all `max_pages` pages —
an empty page contributes its item count (zero) to `found`, nothing to
`processed`, and collection continues to the following pages; there is no
early exit. -/
theorem no_early_exit_on_empty_page {V : Type} (http : ℕ → HttpResponse V)
    (f : V → Option ℚ) (language : String) (city_id period per_page max_pages : ℕ)
    (hok : ∀ p, p < max_pages → ¬ (400 ≤ (http p).status ∧ (http p).status < 600)) :
    collect_category http (fun v => Except.ok (f v)) language city_id period per_page
        max_pages
      = Except.ok ⟨(List.range max_pages).map
            (fun p => kept_salaries f (http p).items),
          ((List.range max_pages).map (fun p => (http p).items.length)).sum,
          ((List.range max_pages).map
            (fun p => (kept_salaries f (http p).items).length)).sum⟩ := by
  rw [collect_category]
  exact collect_go_all_ok http f language city_id period per_page
    (List.range max_pages) (fun p hp => hok p (List.mem_range.mp hp))

/-- Witness for claim C7: three successful pages with the middle one
empty; all three pages are visited and summed. -/
theorem no_early_exit_on_empty_page_witness :
    collect_category empty_middle_http
        (fun v => Except.ok (predict_rub_salary_superjob v)) "Java" 4 30 100 3
      = Except.ok ⟨(List.range 3).map
            (fun p => kept_salaries predict_rub_salary_superjob
              (empty_middle_http p).items),
          ((List.range 3).map (fun p => (empty_middle_http p).items.length)).sum,
          ((List.range 3).map
            (fun p => (kept_salaries predict_rub_salary_superjob
              (empty_middle_http p).items).length)).sum⟩ :=
  no_early_exit_on_empty_page empty_middle_http predict_rub_salary_superjob
    "Java" 4 30 100 3
    (by
      intro p hp
      rcases eq_or_ne p 1 with h | h <;> norm_num [empty_middle_http, h])

end LanguageSalary
